import Mathlib

/-!
Verification of the ChatRPG quest & challenge resolution engine.

The definitions below are a shallow embedding of the rules logic in
`backend/game_state_manager.py` and `backend/gemini_service.py`:
pure functions are translated directly, SQLite-backed state becomes
explicit record/list state passing, and the random d20 roll becomes an
explicit integer argument (matching the test suite's mocking of
`random.randint`).  Python numbers are modelled by `Int` (and `ℚ` where
the source multiplies by float factors that are exact at the inputs the
properties touch); Python strings by `String`.
-/

namespace ChatRPG

/-- Result of `should_require_roll`: the auto-resolution triage record.
The source returns a dict with `requires_roll`, `outcome`, and (in the
auto branches) a `narrative` string. -/
structure RollCheck where
  requires_roll : Bool
  outcome : String
  narrative : Option String
deriving DecidableEq, Repr

/-- Embedding of `GameStateManager.should_require_roll` (game_state_manager.py).
Decides whether a dice roll is needed or auto-success/failure applies. -/
def should_require_roll (challenge_dc player_stat : Int) : RollCheck :=
  let margin := player_stat - challenge_dc
  if 5 ≤ margin then
    { requires_roll := false, outcome := "auto_success", narrative := some "Trivial task." }
  else if margin ≤ -10 then
    { requires_roll := false, outcome := "auto_failure", narrative := some "Beyond your ability." }
  else
    { requires_roll := true, outcome := "uncertain", narrative := none }

/-- Embedding of `GameStateManager.calculate_failure_severity`. -/
def calculate_failure_severity (roll_total dc : Int) (is_crit_fail : Bool) : String :=
  if is_crit_fail then "critical"
  else
    let margin := roll_total - dc
    if -3 ≤ margin then "minor"
    else if -8 ≤ margin then "major"
    else "severe"

/-- The named relationship-event modifier table `RELATIONSHIP_MODIFIERS`. -/
def RELATIONSHIP_MODIFIERS : List (String × Int) :=
  [("quest_accepted", 2), ("auto_success", 5), ("roll_success", 8),
   ("minor_failure", -2), ("major_failure", -5), ("severe_failure", -10),
   ("critical_failure", -15), ("quest_refused", -3), ("quest_abandoned", -8)]

/-- The `change_amount: int | str` argument of `update_relationship`. -/
inductive ChangeAmount where
  | event : String → ChangeAmount
  | delta : Int → ChangeAmount
deriving DecidableEq, Repr

/-- The modifier resolution step of `update_relationship`:
`RELATIONSHIP_MODIFIERS.get(change_amount, 0)` for a string,
the raw integer otherwise. -/
def resolveModifier : ChangeAmount → Int
  | ChangeAmount.event s => (RELATIONSHIP_MODIFIERS.lookup s).getD 0
  | ChangeAmount.delta n => n

/-- Core of `GameStateManager.update_relationship` on one NPC's stored
relationship value: `max(0, min(100, current + modifier))`. -/
def update_relationship (current : Int) (change : ChangeAmount) : Int :=
  max 0 (min 100 (current + resolveModifier change))

/-- A sequence of `update_relationship` calls on one NPC, starting from the
default relationship of 50 (`DEFAULT_NPC_STATE`). -/
def apply_relationship_events (events : List ChangeAmount) : Int :=
  events.foldl update_relationship 50

/-- The stored resolution record built by `resolve_challenge`.  The roll
branch of the source omits the `auto_resolved` and `narrative` keys; that
is modelled as `auto_resolved := false`, `narrative := none`. -/
structure ChallengeResult where
  success : Bool
  roll : Int
  stat_bonus : Int
  total : Int
  dc : Int
  margin : Int
  critical_success : Bool
  critical_failure : Bool
  auto_resolved : Bool
  severity : String
  narrative : Option String
deriving DecidableEq, Repr

/-- A row of the `challenges` table, restricted to the fields the engine
reads and writes. -/
structure Challenge where
  id : String
  quest_id : String
  ctype : String
  dc : Int
  completed : Bool
  result : Option ChallengeResult
deriving DecidableEq, Repr

/-- The resolution computation of `GameStateManager.resolve_challenge` for a
found challenge: auto-resolution check, then either the synthetic
auto-record or the dice record.  `stat_bonus` is the player's raw stat for
the challenge type; `roll` is the value `random.randint(1, 20)` would
return (used only when a roll is required). -/
def resolve_challenge_core (ch : Challenge) (stat_bonus roll : Int) : ChallengeResult :=
  let auto_check := should_require_roll ch.dc stat_bonus
  if !auto_check.requires_roll then
    let success := auto_check.outcome == "auto_success"
    let sroll : Int := if success then 20 else 1
    let total := sroll + stat_bonus
    { success := success, roll := sroll, stat_bonus := stat_bonus, total := total,
      dc := ch.dc, margin := total - ch.dc, critical_success := false,
      critical_failure := false, auto_resolved := true,
      severity := if success then "minor" else "impossible",
      narrative := auto_check.narrative }
  else
    let total := roll + stat_bonus
    let success := if roll == 1 then false else decide (ch.dc ≤ total)
    let severity := if success then "success"
                    else calculate_failure_severity total ch.dc (roll == 1)
    { success := success, roll := roll, stat_bonus := stat_bonus, total := total,
      dc := ch.dc, margin := total - ch.dc, critical_success := roll == 20,
      critical_failure := roll == 1, auto_resolved := false,
      severity := severity, narrative := none }

/-- The state update performed by `resolve_challenge` on the challenge row:
`UPDATE challenges SET completed = 1, result = ... WHERE id = ?` — note the
source places no condition on the prior `completed` flag. -/
def resolve_challenge_step (ch : Challenge) (stat_bonus roll : Int) : Challenge :=
  { ch with completed := true, result := some (resolve_challenge_core ch stat_bonus roll) }

/-- A fixed challenge used to instantiate the resolver scenarios. -/
def scenarioChallenge (dc : Int) : Challenge :=
  { id := "chal_1", quest_id := "quest_1", ctype := "strength", dc := dc,
    completed := false, result := none }

/- ================= Claims ================= -/

/-- Claim C1: the auto-resolution triage computes `margin = stat - dc` and
returns `requires_roll = false` with outcome `auto_success` when
`margin ≥ 5`, `requires_roll = false` with outcome `auto_failure` when
`margin ≤ -10`, and `requires_roll = true` otherwise. -/
theorem should_require_roll_triage (player_stat challenge_dc : Int) :
    (5 ≤ player_stat - challenge_dc →
      (should_require_roll challenge_dc player_stat).requires_roll = false ∧
      (should_require_roll challenge_dc player_stat).outcome = "auto_success") ∧
    (player_stat - challenge_dc ≤ -10 →
      (should_require_roll challenge_dc player_stat).requires_roll = false ∧
      (should_require_roll challenge_dc player_stat).outcome = "auto_failure") ∧
    (-10 < player_stat - challenge_dc → player_stat - challenge_dc < 5 →
      (should_require_roll challenge_dc player_stat).requires_roll = true) := by
  simp only [should_require_roll]
  refine ⟨?_, ?_, ?_⟩ <;> intros <;> split_ifs <;> simp_all <;> omega

/-- Witness for C1 at concrete stats and DCs. -/
theorem should_require_roll_triage_witness :
    ((should_require_roll 10 20).requires_roll = false ∧
      (should_require_roll 10 20).outcome = "auto_success") ∧
    ((should_require_roll 25 10).requires_roll = false ∧
      (should_require_roll 25 10).outcome = "auto_failure") ∧
    (should_require_roll 12 10).requires_roll = true :=
  ⟨(should_require_roll_triage 20 10).1 (by decide),
   (should_require_roll_triage 10 25).2.1 (by decide),
   (should_require_roll_triage 10 12).2.2 (by decide) (by decide)⟩

/-- Claim C2: for a non-auto failed roll, severity is graded from
`margin = total - dc`: `minor` iff `margin ≥ -3`, `major` iff
`-8 ≤ margin < -3`, `severe` iff `margin < -8`; and on the rolled path a
natural 1 forces failure with severity `critical` regardless of margin. -/
theorem failure_severity_grading :
    (∀ roll_total dc : Int,
      (calculate_failure_severity roll_total dc false = "minor" ↔ -3 ≤ roll_total - dc) ∧
      (calculate_failure_severity roll_total dc false = "major" ↔
        (-8 ≤ roll_total - dc ∧ roll_total - dc < -3)) ∧
      (calculate_failure_severity roll_total dc false = "severe" ↔ roll_total - dc < -8)) ∧
    (∀ ch : Challenge, ∀ stat roll : Int,
      (should_require_roll ch.dc stat).requires_roll = true → roll ≠ 1 →
      (resolve_challenge_core ch stat roll).success = false →
      (resolve_challenge_core ch stat roll).severity =
        calculate_failure_severity (roll + stat) ch.dc false) ∧
    (∀ ch : Challenge, ∀ stat : Int,
      (should_require_roll ch.dc stat).requires_roll = true →
      (resolve_challenge_core ch stat 1).success = false ∧
      (resolve_challenge_core ch stat 1).severity = "critical") := by
  refine ⟨?_, ?_, ?_⟩
  · intro roll_total dc
    simp only [calculate_failure_severity]
    split_ifs <;> refine ⟨?_, ?_, ?_⟩ <;> constructor <;> intro h <;> simp_all <;> omega
  · intro ch stat roll hreq hr1 hfail
    simp only [resolve_challenge_core, hreq, Bool.not_true, Bool.false_eq_true, if_false] at hfail ⊢
    have h1 : (roll == 1) = false := by
      simp only [beq_eq_false_iff_ne]; exact hr1
    simp only [h1, if_false] at hfail ⊢
    simp only [hfail, if_false]
    simp
  · intro ch stat hreq
    simp only [resolve_challenge_core, hreq, Bool.not_true, Bool.false_eq_true, if_false]
    simp [calculate_failure_severity]

/-- Witness for C2 at concrete totals, DCs, and a natural 1. -/
theorem failure_severity_grading_witness :
    (calculate_failure_severity 13 15 false = "minor" ↔ -3 ≤ (13 : Int) - 15) ∧
    ((resolve_challenge_core (scenarioChallenge 14) 10 1).success = false ∧
      (resolve_challenge_core (scenarioChallenge 14) 10 1).severity = "critical") :=
  ⟨(failure_severity_grading.1 13 15).1,
   failure_severity_grading.2.2 (scenarioChallenge 14) 10 (by decide)⟩

/-- Claim C4: starting from the default relationship of 50, any sequence of
`update_relationship` calls (named event keys or raw integer deltas) leaves
the NPC's relationship score within [0, 100]. -/
theorem relationship_always_in_bounds (events : List ChangeAmount) :
    0 ≤ apply_relationship_events events ∧ apply_relationship_events events ≤ 100 := by
  have step : ∀ (cur : Int) (c : ChangeAmount),
      0 ≤ update_relationship cur c ∧ update_relationship cur c ≤ 100 := by
    intro cur c
    unfold update_relationship
    omega
  have main : ∀ (es : List ChangeAmount) (cur : Int), 0 ≤ cur → cur ≤ 100 →
      0 ≤ es.foldl update_relationship cur ∧ es.foldl update_relationship cur ≤ 100 := by
    intro es
    induction es with
    | nil => intro cur h0 h1; exact ⟨h0, h1⟩
    | cons e es ih =>
        intro cur _ _
        simp only [List.foldl_cons]
        exact ih _ (step cur e).1 (step cur e).2
  exact main events 50 (by decide) (by decide)

/-- Claim C10: an event-name string absent from `RELATIONSHIP_MODIFIERS`
resolves to a delta of 0, so the relationship value (already in [0,100])
is unchanged; no error path exists. -/
theorem unknown_event_preserves_relationship (key : String) (r : Int)
    (hk : RELATIONSHIP_MODIFIERS.lookup key = none) (h0 : 0 ≤ r) (h1 : r ≤ 100) :
    update_relationship r (ChangeAmount.event key) = r := by
  have hmod : resolveModifier (ChangeAmount.event key) = 0 := by
    simp [resolveModifier, hk]
  unfold update_relationship
  rw [hmod]
  omega

/-- Witness for C10 at a concrete unknown event name. -/
theorem unknown_event_preserves_relationship_witness :
    update_relationship 50 (ChangeAmount.event "mystery_event") = 50 :=
  unknown_event_preserves_relationship "mystery_event" 50 (by decide) (by decide) (by decide)

/-- Claim C7 counterexample: with player stat 10 and dc 25 the resolver
auto-fails (margin -15 ≤ -10) without consuming the forced roll of 5, so
the claimed record (total 15, margin -10, severity "severe") is not
produced. -/
theorem resolve_stat10_dc25_not_severe :
    ¬ ((resolve_challenge_core (scenarioChallenge 25) 10 5).total = 15 ∧
       (resolve_challenge_core (scenarioChallenge 25) 10 5).success = false ∧
       (resolve_challenge_core (scenarioChallenge 25) 10 5).margin = -10 ∧
       (resolve_challenge_core (scenarioChallenge 25) 10 5).severity = "severe") := by
  decide

/-- Claim C7 (amended): resolving with player stat 10 and dc 25 triggers
auto-failure: the forced roll is never used, the record carries the
synthetic roll 1, total 11, success false, margin -14, severity
"impossible", auto_resolved true. -/
theorem resolve_stat10_dc25_auto_failure :
    (resolve_challenge_core (scenarioChallenge 25) 10 5).success = false ∧
    (resolve_challenge_core (scenarioChallenge 25) 10 5).roll = 1 ∧
    (resolve_challenge_core (scenarioChallenge 25) 10 5).total = 11 ∧
    (resolve_challenge_core (scenarioChallenge 25) 10 5).margin = -14 ∧
    (resolve_challenge_core (scenarioChallenge 25) 10 5).severity = "impossible" ∧
    (resolve_challenge_core (scenarioChallenge 25) 10 5).auto_resolved = true := by
  decide

/-- A row of the `quests` table, restricted to the fields `accept_quest`
and the completion aggregation read and write. -/
structure Quest where
  id : String
  status : String
  giver_npc : Option String
  accept_response : Option String
deriving DecidableEq, Repr

/-- The session state touched by `accept_quest`: the quest rows and the
per-NPC relationship scores (`npc_states[...]["relationship"]`). -/
@[ext]
structure SessionState where
  quests : List Quest
  npcs : List (String × Int)
deriving DecidableEq, Repr

/-- `update_relationship` at the session level: `get_npc_state` initializes
a default record (relationship 50) when the NPC is unknown, then the
clamped update is stored back. -/
def apply_npc_event (npcs : List (String × Int)) (name : String)
    (change : ChangeAmount) : List (String × Int) :=
  match npcs.lookup name with
  | some r => npcs.map (fun p => if p.1 == name then (p.1, update_relationship r change) else p)
  | none => npcs ++ [(name, update_relationship 50 change)]

/-- Embedding of `GameStateManager.accept_quest`.  The source fetches the
quest's `accept_response` (falling back to "Quest accepted." when the row
is missing or the column is NULL/empty), unconditionally runs
`UPDATE quests SET status = 'active' WHERE id = ?`, and applies the
`quest_accepted` relationship event to the giver; the source's `if giver:`
truthiness skips both a missing and an empty-string giver name.  There is
no check of the prior status and no error return. -/
def accept_quest (st : SessionState) (qid : String) : SessionState × String :=
  let row := st.quests.find? (fun q => q.id == qid)
  let response_text :=
    match row with
    | some q =>
        match q.accept_response with
        | some s => if s == "" then "Quest accepted." else s
        | none => "Quest accepted."
    | none => "Quest accepted."
  let quests := st.quests.map (fun q => if q.id == qid then { q with status := "active" } else q)
  let giver := (st.quests.find? (fun q => q.id == qid)).bind Quest.giver_npc
  let npcs :=
    match giver with
    | some g =>
        if g == "" then st.npcs
        else apply_npc_event st.npcs g (ChangeAmount.event "quest_accepted")
    | none => st.npcs
  ({ quests := quests, npcs := npcs }, response_text)

/-- The `any_failure` loop of `resolve_challenge`: a challenge whose stored
result exists and has `success = false` counts as a failure; a NULL result
is skipped. -/
def quest_any_failure (cs : List Challenge) : Bool :=
  cs.any (fun c =>
    match c.result with
    | some r => !r.success
    | none => false)

/-- `resolve_challenge` on a quest's challenge list: find the challenge,
compute its resolution record, store it with `completed = 1`, and if no
incomplete challenge remains set the quest status to `failed` when any
stored result failed, else `completed`.  Returns the updated challenge
list and the quest status. -/
def resolve_challenge_in_quest (cs : List Challenge) (cid : String) (stat roll : Int)
    (qstatus : String) : List Challenge × String :=
  match cs.find? (fun c => c.id == cid) with
  | none => (cs, qstatus)
  | some found =>
      let res := resolve_challenge_core found stat roll
      let cs2 := cs.map (fun c =>
        if c.id == cid then { c with completed := true, result := some res } else c)
      if cs2.countP (fun c => !c.completed) == 0 then
        (cs2, if quest_any_failure cs2 then "failed" else "completed")
      else (cs2, qstatus)

/-- Helper: a map by a function that fixes every element is the identity. -/
theorem list_map_id_of_eq {α : Type} (l : List α) (f : α → α)
    (h : ∀ a ∈ l, f a = a) : l.map f = l := by
  induction l with
  | nil => rfl
  | cons x xs ih =>
      simp only [List.map_cons]
      rw [h x (by simp), ih (fun a ha => h a (by simp [ha]))]

/-- Helper: `quest_any_failure` detects exactly a stored failed result. -/
theorem quest_any_failure_iff (cs : List Challenge) :
    quest_any_failure cs = true ↔
      ∃ c ∈ cs, ∃ r, c.result = some r ∧ r.success = false := by
  unfold quest_any_failure
  rw [List.any_eq_true]
  constructor
  · rintro ⟨c, hc, h⟩
    refine ⟨c, hc, ?_⟩
    cases hres : c.result with
    | none => rw [hres] at h; simp at h
    | some r =>
        rw [hres] at h
        exact ⟨r, rfl, by simpa using h⟩
  · rintro ⟨c, hc, r, hres, hs⟩
    exact ⟨c, hc, by rw [hres]; simpa using hs⟩

/-- Unfolding lemma for the first component of `accept_quest`. -/
theorem accept_quest_fst (st : SessionState) (qid : String) :
    (accept_quest st qid).1 =
      { quests := st.quests.map (fun q => if q.id == qid then { q with status := "active" } else q),
        npcs :=
          match (st.quests.find? (fun q => q.id == qid)).bind Quest.giver_npc with
          | some g =>
              if g == "" then st.npcs
              else apply_npc_event st.npcs g (ChangeAmount.event "quest_accepted")
          | none => st.npcs } := rfl

/-- Unfolding lemma for the returned text of `accept_quest`. -/
theorem accept_quest_snd (st : SessionState) (qid : String) :
    (accept_quest st qid).2 =
      match st.quests.find? (fun q => q.id == qid) with
      | some q =>
          match q.accept_response with
          | some s => if s == "" then "Quest accepted." else s
          | none => "Quest accepted."
      | none => "Quest accepted." := rfl

/-- Quest and session fixtures for the `accept_quest` claims. -/
def refusedQuest : Quest :=
  { id := "q1", status := "refused", giver_npc := some "Mira",
    accept_response := some "Splendid!" }

/-- Session with one quest in status `refused`. -/
def refusedState : SessionState :=
  { quests := [refusedQuest], npcs := [("Mira", 50)] }

/-- Session with no quests at all. -/
def emptyState : SessionState := { quests := [], npcs := [] }

/-- Claim C5 counterexample: `accept_quest` does not require the quest to
be in status `offered` — a quest in status `refused` is switched to
`active` — and a missing quest id yields the normal default text with the
state unchanged, not an error. -/
theorem accept_quest_claim_false :
    (accept_quest refusedState "q1").1.quests = [{ refusedQuest with status := "active" }] ∧
    (accept_quest emptyState "missing").2 = "Quest accepted." ∧
    (accept_quest emptyState "missing").1 = emptyState := by
  decide

/-- Helper: overwriting the first entry of a key present in an
association list is visible through `lookup`. -/
theorem lookup_map_update (npcs : List (String × Int)) (g : String) (v : Int)
    (hmem : (npcs.lookup g).isSome) :
    (npcs.map (fun p => if p.1 == g then (p.1, v) else p)).lookup g = some v := by
  induction npcs with
  | nil => simp [List.lookup] at hmem
  | cons p rest ih =>
      obtain ⟨k, w⟩ := p
      by_cases hk : k = g
      · subst hk
        rw [List.map_cons]
        have hf : (if (((k, w) : String × Int).1 == k) = true
            then (((k, w) : String × Int).1, v) else ((k, w) : String × Int)) = (k, v) := by
          simp
        rw [hf]
        simp [List.lookup]
      · have h1 : (k == g) = false := beq_eq_false_iff_ne.mpr hk
        have h2 : (g == k) = false := beq_eq_false_iff_ne.mpr (fun h => hk h.symm)
        rw [List.map_cons]
        simp only [h1, Bool.false_eq_true, if_false]
        simp only [List.lookup, h2] at hmem ⊢
        exact ih hmem

/-- Helper: `apply_npc_event` on an NPC already present updates its
relationship score with `update_relationship`. -/
theorem lookup_apply_npc_event (npcs : List (String × Int)) (g : String)
    (ev : ChangeAmount) (r : Int) (h : npcs.lookup g = some r) :
    (apply_npc_event npcs g ev).lookup g = some (update_relationship r ev) := by
  unfold apply_npc_event
  rw [h]
  exact lookup_map_update npcs g _ (by rw [h]; rfl)

/-- Claim C5 (amended): `accept_quest` sets every matching quest to
`active` regardless of its prior status; it returns the quest's non-empty
`accept_response` when the quest is found, and the default string
"Quest accepted." when the found quest's response is absent or empty; it
applies the `quest_accepted` relationship modifier to the quest's giver
when the quest exists and names a (non-empty) giver; when the quest is
not found it returns the default string and leaves the session state
unchanged (no error is reported). -/
theorem accept_quest_behaviour (st : SessionState) (qid : String) :
    (∀ q ∈ st.quests, q.id = qid →
      { q with status := "active" } ∈ (accept_quest st qid).1.quests) ∧
    (∀ q, st.quests.find? (fun c => c.id == qid) = some q →
      ∀ s, q.accept_response = some s → s ≠ "" → (accept_quest st qid).2 = s) ∧
    (∀ q, st.quests.find? (fun c => c.id == qid) = some q →
      (q.accept_response = none ∨ q.accept_response = some "") →
      (accept_quest st qid).2 = "Quest accepted.") ∧
    (∀ q g r, st.quests.find? (fun c => c.id == qid) = some q →
      q.giver_npc = some g → g ≠ "" → st.npcs.lookup g = some r →
      (accept_quest st qid).1.npcs.lookup g =
        some (update_relationship r (ChangeAmount.event "quest_accepted"))) ∧
    (st.quests.find? (fun c => c.id == qid) = none →
      (accept_quest st qid).2 = "Quest accepted." ∧ (accept_quest st qid).1 = st) := by
  refine ⟨?_, ?_, ?_, ?_, ?_⟩
  · intro q hq hid
    rw [accept_quest_fst]
    exact List.mem_map.mpr ⟨q, hq, by simp [hid]⟩
  · intro q hfind s hresp hs
    rw [accept_quest_snd, hfind]
    simp [hresp, hs]
  · intro q hfind hcase
    rw [accept_quest_snd, hfind]
    rcases hcase with h | h <;> simp [h]
  · intro q g r hfind hg hne hr
    have hgne : (g == "") = false := beq_eq_false_iff_ne.mpr hne
    rw [accept_quest_fst, hfind]
    simp only [Option.some_bind, hg, hgne]
    simp only [Bool.false_eq_true, if_false]
    exact lookup_apply_npc_event st.npcs g _ r hr
  · intro hnone
    have h1 : (accept_quest st qid).1.quests = st.quests := by
      rw [accept_quest_fst]
      apply list_map_id_of_eq
      intro a ha
      have hfalse := List.find?_eq_none.mp hnone a ha
      simp only [Bool.not_eq_true] at hfalse
      simp [hfalse]
    have h2 : (accept_quest st qid).1.npcs = st.npcs := by
      rw [accept_quest_fst, hnone]
      rfl
    refine ⟨?_, ?_⟩
    · rw [accept_quest_snd, hnone]
    · exact SessionState.ext h1 h2

/-- Quest in status `offered` with no stored accept response or giver. -/
def silentQuest : Quest :=
  { id := "q2", status := "offered", giver_npc := none, accept_response := none }

/-- Session holding only `silentQuest`. -/
def silentState : SessionState := { quests := [silentQuest], npcs := [] }

/-- Witness for C5's amended theorem at the concrete session fixtures:
activation, non-empty response, default response on a NULL column, the
giver's +2 relationship update, and the not-found default. -/
theorem accept_quest_behaviour_witness :
    ({ refusedQuest with status := "active" } ∈ (accept_quest refusedState "q1").1.quests) ∧
    (accept_quest refusedState "q1").2 = "Splendid!" ∧
    (accept_quest silentState "q2").2 = "Quest accepted." ∧
    (accept_quest refusedState "q1").1.npcs.lookup "Mira" =
      some (update_relationship 50 (ChangeAmount.event "quest_accepted")) ∧
    (accept_quest emptyState "missing").2 = "Quest accepted." :=
  ⟨(accept_quest_behaviour refusedState "q1").1 refusedQuest (by decide) (by decide),
   (accept_quest_behaviour refusedState "q1").2.1 refusedQuest (by decide) "Splendid!"
     (by decide) (by decide),
   (accept_quest_behaviour silentState "q2").2.2.1 silentQuest (by decide) (Or.inl rfl),
   (accept_quest_behaviour refusedState "q1").2.2.2.1 refusedQuest "Mira" 50 (by decide)
     (by decide) (by decide) (by decide),
   ((accept_quest_behaviour emptyState "missing").2.2.2.2 (by decide)).1⟩

/-- Claim C3: when a challenge resolution completes the last incomplete
challenge of a quest (so every challenge row ends up completed), the quest
status becomes `completed` exactly when every stored result has
`success = true`, and `failed` exactly when some stored result has
`success = false`. -/
theorem quest_completion_aggregation (cs : List Challenge) (cid : String) (stat roll : Int)
    (qstatus : String)
    (hfound : (cs.find? (fun c => c.id == cid)).isSome)
    (hlast : ∀ c ∈ (resolve_challenge_in_quest cs cid stat roll qstatus).1, c.completed = true) :
    ((resolve_challenge_in_quest cs cid stat roll qstatus).2 = "completed" ↔
      ∀ c ∈ (resolve_challenge_in_quest cs cid stat roll qstatus).1,
        ∀ r, c.result = some r → r.success = true) ∧
    ((resolve_challenge_in_quest cs cid stat roll qstatus).2 = "failed" ↔
      ∃ c ∈ (resolve_challenge_in_quest cs cid stat roll qstatus).1,
        ∃ r, c.result = some r ∧ r.success = false) := by
  obtain ⟨found, hfind⟩ := Option.isSome_iff_exists.mp hfound
  have hfst : (resolve_challenge_in_quest cs cid stat roll qstatus).1 =
      cs.map (fun c => if c.id == cid then
        { c with completed := true,
                 result := some (resolve_challenge_core found stat roll) } else c) := by
    simp only [resolve_challenge_in_quest, hfind]
    split <;> rfl
  have hlast2 : ∀ c ∈ cs.map (fun c => if c.id == cid then
      { c with completed := true,
               result := some (resolve_challenge_core found stat roll) } else c),
      c.completed = true := by
    rw [← hfst]; exact hlast
  have hcount : (cs.map (fun c => if c.id == cid then
      { c with completed := true,
               result := some (resolve_challenge_core found stat roll) } else c)).countP
        (fun c => !c.completed) = 0 :=
    List.countP_eq_zero.mpr (fun c hc => by simp [hlast2 c hc])
  have hsnd : (resolve_challenge_in_quest cs cid stat roll qstatus).2 =
      if quest_any_failure (cs.map (fun c => if c.id == cid then
        { c with completed := true,
                 result := some (resolve_challenge_core found stat roll) } else c))
      then "failed" else "completed" := by
    simp only [resolve_challenge_in_quest, hfind, hcount]
    simp
  rw [hsnd, hfst]
  by_cases haf : quest_any_failure (cs.map (fun c => if c.id == cid then
      { c with completed := true,
               result := some (resolve_challenge_core found stat roll) } else c)) = true
  · rw [if_pos haf]
    obtain ⟨c, hc, r, hres, hs⟩ := (quest_any_failure_iff _).mp haf
    constructor
    · constructor
      · intro h; exact absurd h (by decide)
      · intro hall
        have := hall c hc r hres
        rw [this] at hs
        exact absurd hs (by decide)
    · exact iff_of_true rfl ⟨c, hc, r, hres, hs⟩
  · rw [if_neg haf]
    have hnofail : ∀ c ∈ cs.map (fun c => if c.id == cid then
        { c with completed := true,
                 result := some (resolve_challenge_core found stat roll) } else c),
        ∀ r, c.result = some r → r.success = true := by
      intro c hc r hres
      by_contra hfalse
      exact haf ((quest_any_failure_iff _).mpr
        ⟨c, hc, r, hres, by revert hfalse; cases r.success <;> simp⟩)
    constructor
    · exact iff_of_true rfl hnofail
    · constructor
      · intro h; exact absurd h (by decide)
      · rintro ⟨c, hc, r, hres, hs⟩
        have := hnofail c hc r hres
        rw [this] at hs
        exact absurd hs (by decide)

/-- A challenge already resolved successfully, stored as its result row. -/
def passedResult : ChallengeResult :=
  { success := true, roll := 10, stat_bonus := 10, total := 20, dc := 10, margin := 10,
    critical_success := false, critical_failure := false, auto_resolved := false,
    severity := "success", narrative := none }

/-- First challenge of the witness quest: already completed with success. -/
def doneChallenge : Challenge :=
  { id := "a", quest_id := "q", ctype := "strength", dc := 10, completed := true,
    result := some passedResult }

/-- Second challenge of the witness quest: still incomplete, dc 10. -/
def openChallenge : Challenge :=
  { id := "b", quest_id := "q", ctype := "strength", dc := 10, completed := false,
    result := none }

/-- Witness for C3: resolving the last open challenge with a natural 1
(critical failure) drives the quest status to "failed". -/
theorem quest_completion_aggregation_witness :
    (resolve_challenge_in_quest [doneChallenge, openChallenge] "b" 10 1 "active").2 =
      "failed" :=
  (quest_completion_aggregation [doneChallenge, openChallenge] "b" 10 1 "active"
      (by decide) (by decide)).2.mpr
    ⟨{ openChallenge with
        completed := true
        result := some (resolve_challenge_core openChallenge 10 1) },
     by decide, resolve_challenge_core openChallenge 10 1, rfl, by decide⟩

/-- The incomplete challenge used for the re-resolution claim, dc 12. -/
def repeatChallenge : Challenge :=
  { id := "c", quest_id := "q2", ctype := "strength", dc := 12, completed := false,
    result := none }

/-- Claim C6 counterexample: `resolve_challenge` never consults the
`completed` flag, so resolving an already-completed challenge again (here
with a different roll) overwrites the stored result record. -/
theorem resolve_completed_overwrites_cex :
    (resolve_challenge_step repeatChallenge 10 5).completed = true ∧
    (resolve_challenge_step (resolve_challenge_step repeatChallenge 10 5) 10 15).result ≠
      (resolve_challenge_step repeatChallenge 10 5).result := by
  decide

/-- Claim C6 (amended): once `completed` is true a further resolution call
still recomputes and stores a fresh result: whenever the fresh record
differs from the stored one, the stored result changes (while `completed`
stays true). -/
theorem resolve_completed_overwrites (ch : Challenge) (stat roll : Int)
    (_hc : ch.completed = true)
    (hdiff : ch.result ≠ some (resolve_challenge_core ch stat roll)) :
    (resolve_challenge_step ch stat roll).completed = true ∧
    (resolve_challenge_step ch stat roll).result ≠ ch.result := by
  unfold resolve_challenge_step
  exact ⟨rfl, fun h => hdiff h.symm⟩

/-- Witness for C6's amended theorem: re-resolving the concrete completed
challenge with a different roll changes the stored result. -/
theorem resolve_completed_overwrites_witness :
    (resolve_challenge_step (resolve_challenge_step repeatChallenge 10 5) 10 15).completed
        = true ∧
    (resolve_challenge_step (resolve_challenge_step repeatChallenge 10 5) 10 15).result ≠
      (resolve_challenge_step repeatChallenge 10 5).result :=
  resolve_completed_overwrites (resolve_challenge_step repeatChallenge 10 5) 10 15
    (by decide) (by decide)

/-- Python `str.lower()` on the ASCII tier names. -/
def pyLower (s : String) : String := String.mk (s.data.map Char.toLower)

/-- Python `int(...)` on an exact rational: truncation toward zero. -/
def pyInt (q : ℚ) : Int := q.num.tdiv q.den

/-- Python substring containment `needle in hay` on strings. -/
def pyInStr (needle hay : String) : Bool :=
  let n := needle.data
  let h := hay.data
  (List.range (h.length + 1)).any (fun i => ((h.drop i).take n.length) == n)

/-- `TIER_MAPPING` from game_state_manager.py: old tier names to new. -/
def TIER_MAPPING : List (String × String) :=
  [("trivial", "tier_0_trivial"), ("average", "tier_1_minor"),
   ("tough", "tier_2_standard"), ("elite", "tier_3_significant"),
   ("boss", "tier_4_major"), ("legendary", "tier_5_legendary")]

/-- The `tier_multipliers` table local to `calculate_quest_rewards`.
Float constants are exact binary values, modelled as rationals. -/
def tier_multipliers : List (String × ℚ) :=
  [("tier_0_trivial", 1 / 2), ("tier_1_minor", 1), ("tier_2_standard", 2),
   ("tier_3_significant", 4), ("tier_4_major", 8), ("tier_5_legendary", 16)]

/-- `relationship_multiplier = 1.0 + (relationship - 50) / 200`. -/
def relationship_multiplier (relationship : Int) : ℚ :=
  1 + ((relationship : ℚ) - 50) / 200

/-- An `NPC_RESOURCE_LEVELS` entry, restricted to the fields the reward
functions read (`can_offer`, `gold_range`, `item_tier`). -/
structure ResourceLevel where
  can_offer : List String
  gold_range : Option (Int × Int)
  item_tier : Option String
deriving DecidableEq, Repr

/-- `NPC_RESOURCE_LEVELS["destitute"]`. -/
def destitute_level : ResourceLevel :=
  { can_offer := ["gratitude", "information", "future_favor"],
    gold_range := none, item_tier := none }

/-- `NPC_RESOURCE_LEVELS["poor"]` — also the fall-back config. -/
def poor_level : ResourceLevel :=
  { can_offer := ["food", "simple_tools", "shelter", "minor_favor"],
    gold_range := some (1, 10), item_tier := some "common" }

/-- `NPC_RESOURCE_LEVELS["modest"]`. -/
def modest_level : ResourceLevel :=
  { can_offer := ["modest_gold", "quality_goods", "trade_services"],
    gold_range := some (10, 50), item_tier := some "common_to_uncommon" }

/-- `NPC_RESOURCE_LEVELS["comfortable"]`. -/
def comfortable_level : ResourceLevel :=
  { can_offer := ["good_gold", "fine_items", "connections", "property_access"],
    gold_range := some (50, 200), item_tier := some "uncommon_to_rare" }

/-- `NPC_RESOURCE_LEVELS["wealthy"]`. -/
def wealthy_level : ResourceLevel :=
  { can_offer := ["substantial_gold", "rare_items", "political_favors", "land_grants"],
    gold_range := some (200, 1000), item_tier := some "rare_to_epic" }

/-- `NPC_RESOURCE_LEVELS["opulent"]`. -/
def opulent_level : ResourceLevel :=
  { can_offer := ["vast_gold", "legendary_items", "titles", "armies"],
    gold_range := some (1000, 10000), item_tier := some "epic_to_legendary" }

/-- The `NPC_RESOURCE_LEVELS` table. -/
def NPC_RESOURCE_LEVELS : List (String × ResourceLevel) :=
  [("destitute", destitute_level), ("poor", poor_level), ("modest", modest_level),
   ("comfortable", comfortable_level), ("wealthy", wealthy_level),
   ("opulent", opulent_level)]

/-- The scaled gold range of `calculate_quest_rewards`: the tier name is
lowercased and mapped through `TIER_MAPPING` (falling through unchanged on
a miss), the tier multiplier defaults to 1.0 on a miss, and each bound is
`int(base * tier_multiplier * relationship_multiplier)`.  The random gold
amount is drawn uniformly from this closed interval. -/
def calculate_gold_bounds (quest_tier : String) (lvl : ResourceLevel)
    (relationship : Int) : Int × Int :=
  let mapped := (TIER_MAPPING.lookup (pyLower quest_tier)).getD (pyLower quest_tier)
  let tm := (tier_multipliers.lookup mapped).getD 1
  let gr := lvl.gold_range.getD (0, 0)
  let rm := relationship_multiplier relationship
  (pyInt ((gr.1 : ℚ) * tm * rm), pyInt ((gr.2 : ℚ) * tm * rm))

/-- A `material_rewards` entry of a calculated reward bundle. -/
inductive MaterialReward where
  | gold : Int → MaterialReward
  | item : String → MaterialReward
  | information : MaterialReward
  | favor_token : MaterialReward
deriving DecidableEq, Repr

/-- The `max_gold` fold of `validate_llm_quest_rewards`: the maximum of
all calculated gold amounts, starting from 0. -/
def max_calc_gold (rs : List MaterialReward) : Int :=
  rs.foldl (fun acc r =>
    match r with
    | MaterialReward.gold a => max acc a
    | _ => acc) 0

/-- The gold block of `validate_llm_quest_rewards` (gemini_service.py):
positive proposed gold is flagged when the resource level has no gold-like
capability (no `gold_range` key and no `can_offer` entry containing the
substring "gold"), otherwise when it exceeds 1.5 (= 3/2) times the
calculated maximum. -/
def gold_violations (npc lvlName : String) (cfg : ResourceLevel) (gold : Int)
    (calcRewards : List MaterialReward) : List String :=
  if 0 < gold then
    let can_offer_gold := cfg.gold_range.isSome || cfg.can_offer.any (fun o => pyInStr "gold" o)
    if !can_offer_gold then
      [npc ++ " (resource level: " ++ lvlName ++ ") cannot offer gold."]
    else
      let max_gold := max_calc_gold calcRewards
      if (max_gold : ℚ) * (3 / 2) < (gold : ℚ) then
        ["Gold amount too high: " ++ toString gold ++ " vs calculated max " ++
          toString max_gold ++ " (with 50% buffer)."]
      else []
  else []

/-- The item block of `validate_llm_quest_rewards`: a non-empty item list
is flagged unless `can_offer` contains the exact entry "items" or
"valuable_items" (list membership, not substring). -/
def item_violations (npc lvlName : String) (cfg : ResourceLevel)
    (items : List String) : List String :=
  if !items.isEmpty then
    if !(cfg.can_offer.contains "items") && !(cfg.can_offer.contains "valuable_items") then
      [npc ++ " (resource level: " ++ lvlName ++ ") cannot offer items."]
    else []
  else []

/-- Embedding of `validate_llm_quest_rewards` for an output that does
propose a quest: resolve the resource level (defaulting to "poor"), then
collect the gold violations followed by the item violations. -/
def validate_llm_quest_rewards (npc lvlName : String) (gold : Int)
    (items : List String) (calcRewards : List MaterialReward) : List String :=
  let cfg := (NPC_RESOURCE_LEVELS.lookup lvlName).getD poor_level
  gold_violations npc lvlName cfg gold calcRewards ++
    item_violations npc lvlName cfg items

/-- Helper: when the config lacks the literal entries "items" and
"valuable_items", any non-empty item proposal puts the item violation in
the validator's output. -/
theorem item_violation_mem (npc lvlName : String) (cfg : ResourceLevel) (gold : Int)
    (a : String) (as : List String) (calcRewards : List MaterialReward)
    (hcfg : (NPC_RESOURCE_LEVELS.lookup lvlName).getD poor_level = cfg)
    (hni : cfg.can_offer.contains "items" = false)
    (hnv : cfg.can_offer.contains "valuable_items" = false) :
    (npc ++ " (resource level: " ++ lvlName ++ ") cannot offer items.") ∈
      validate_llm_quest_rewards npc lvlName gold (a :: as) calcRewards := by
  simp only [validate_llm_quest_rewards, hcfg]
  refine List.mem_append.mpr (Or.inr ?_)
  unfold item_violations
  rw [hni, hnv]
  simp

/-- Claim C8 counterexample: a wealthy NPC's `can_offer` list has
"rare_items" but not the literal entry "items", so a proposal containing
items from a wealthy NPC is flagged — the claimed clean pass is false. -/
theorem validate_wealthy_items_flagged_cex :
    validate_llm_quest_rewards "Merchant" "wealthy" 0 ["rare_sword"] [] =
      ["Merchant (resource level: wealthy) cannot offer items."] := by
  decide

/-- Claim C8 (amended): the item gate checks for the literal capability
entries "items" / "valuable_items"; no configured resource level carries
either, so every proposal containing items is flagged, whatever the
resource level (including wealthy and opulent); with no proposed items and
no proposed gold the validator returns the empty list. -/
theorem validate_items_always_flagged (npc lvl : String)
    (hlv : lvl ∈ ["destitute", "poor", "modest", "comfortable", "wealthy", "opulent"])
    (gold : Int) (items : List String) (calcRewards : List MaterialReward)
    (hitems : items ≠ []) :
    (npc ++ " (resource level: " ++ lvl ++ ") cannot offer items.") ∈
      validate_llm_quest_rewards npc lvl gold items calcRewards ∧
    validate_llm_quest_rewards npc lvl 0 [] calcRewards = [] := by
  obtain ⟨a, as, rfl⟩ : ∃ a as, items = a :: as := by
    cases items with
    | nil => exact absurd rfl hitems
    | cons a as => exact ⟨a, as, rfl⟩
  constructor
  · fin_cases hlv <;> exact item_violation_mem npc _ _ gold a as calcRewards rfl rfl rfl
  · fin_cases hlv <;> rfl

/-- Witness for C8's amended theorem: a wealthy NPC with a one-item
proposal is flagged, and a wealthy NPC with nothing proposed passes. -/
theorem validate_items_always_flagged_witness :
    ("Merchant (resource level: wealthy) cannot offer items.") ∈
      validate_llm_quest_rewards "Merchant" "wealthy" 0 ["rare_sword"] [] ∧
    validate_llm_quest_rewards "Merchant" "wealthy" 0 [] [] = [] := by
  have h := validate_items_always_flagged "Merchant" "wealthy" (by decide) 0
    ["rare_sword"] [] (by decide)
  exact ⟨h.1, h.2⟩

/-- Helper: evaluation of `pyInt` on an integer-valued rational. -/
theorem pyInt_intCast (n : Int) : pyInt (n : ℚ) = n := by
  simp [pyInt]

/-- Claim C9: for a wealthy NPC (gold range [200, 1000]), the standard
quest tier (canonical name "tier_2_standard", multiplier 2.0) and
relationship 50 (multiplier 1.0), the calculated gold bounds are
[400, 2000]; against any calculated amount g in that interval a proposed
gold of 500 validates clean, while 3100 is flagged as too high. -/
theorem wealthy_standard_gold_scenario (g : Int) (h1 : 400 ≤ g) (h2 : g ≤ 2000) :
    calculate_gold_bounds "tier_2_standard" wealthy_level 50 = (400, 2000) ∧
    validate_llm_quest_rewards "Merchant" "wealthy" 500 [] [MaterialReward.gold g] = [] ∧
    validate_llm_quest_rewards "Merchant" "wealthy" 3100 [] [MaterialReward.gold g] ≠ [] := by
  have hcfg : (NPC_RESOURCE_LEVELS.lookup "wealthy").getD poor_level = wealthy_level := rfl
  have hit : item_violations "Merchant" "wealthy" wealthy_level [] = [] := rfl
  have hcg : (wealthy_level.gold_range.isSome ||
      wealthy_level.can_offer.any (fun o => pyInStr "gold" o)) = true := rfl
  have hmax : max_calc_gold [MaterialReward.gold g] = g := by
    simp only [max_calc_gold, List.foldl_cons, List.foldl_nil]
    omega
  have hgq1 : (400 : ℚ) ≤ (g : ℚ) := by exact_mod_cast h1
  have hgq2 : (g : ℚ) ≤ 2000 := by exact_mod_cast h2
  refine ⟨?_, ?_, ?_⟩
  · have hmt : (tier_multipliers.lookup
        ((TIER_MAPPING.lookup (pyLower "tier_2_standard")).getD
          (pyLower "tier_2_standard"))).getD 1 = 2 := rfl
    have hrm : relationship_multiplier 50 = 1 := by
      unfold relationship_multiplier
      norm_num
    simp only [calculate_gold_bounds, hmt, wealthy_level, Option.getD_some, hrm]
    have e1 : pyInt (((200 : Int) : ℚ) * 2 * 1) = 400 := by
      rw [show ((200 : Int) : ℚ) * 2 * 1 = ((400 : Int) : ℚ) by push_cast; norm_num]
      exact pyInt_intCast 400
    have e2 : pyInt (((1000 : Int) : ℚ) * 2 * 1) = 2000 := by
      rw [show ((1000 : Int) : ℚ) * 2 * 1 = ((2000 : Int) : ℚ) by push_cast; norm_num]
      exact pyInt_intCast 2000
    rw [e1, e2]
  · simp only [validate_llm_quest_rewards, hcfg, hit, List.append_nil]
    simp only [gold_violations, hcg, hmax]
    rw [if_pos (show (0 : Int) < 500 by norm_num)]
    have hno : ¬ ((g : ℚ) * (3 / 2) < ((500 : Int) : ℚ)) := by
      push_cast
      intro hlt
      linarith
    simp [hno]
    linarith
  · simp only [validate_llm_quest_rewards, hcfg, hit, List.append_nil]
    simp only [gold_violations, hcg, hmax]
    rw [if_pos (show (0 : Int) < 3100 by norm_num)]
    have hyes : (g : ℚ) * (3 / 2) < ((3100 : Int) : ℚ) := by
      push_cast
      linarith
    simp [hyes]
    linarith

/-- Witness for C9 at the concrete calculated amount 1000. -/
theorem wealthy_standard_gold_scenario_witness :
    calculate_gold_bounds "tier_2_standard" wealthy_level 50 = (400, 2000) ∧
    validate_llm_quest_rewards "Merchant" "wealthy" 500 []
      [MaterialReward.gold 1000] = [] ∧
    validate_llm_quest_rewards "Merchant" "wealthy" 3100 []
      [MaterialReward.gold 1000] ≠ [] :=
  wealthy_standard_gold_scenario 1000 (by decide) (by decide)

end ChatRPG
